import Mathlib

/-!
Verification of the binary STL decoder of `src/loaders/binary-stl.ts`.

The decoder (`parse`) reads an 80-byte header (scanning its first 70 bytes
for a `COLOR=rgba` marker), a 32-bit little-endian facet count at offset 80,
and then one 50-byte record per facet starting at offset 84.

The embedding below models an `ArrayBuffer` as a `List Nat` of bytes and a
`DataView` read as an `Option`-valued access (a read past the end of the
buffer throws a `RangeError` in JavaScript; here it returns `none` and makes
the whole decode return `none`).  JavaScript numbers are modelled as exact
rationals `ℚ`; a 32-bit float read decodes the IEEE-754 single-precision bit
pattern into its exact rational value.
-/

set_option maxRecDepth 40000

/-- `DataView.getUint8(i)`: the byte at offset `i`, `none` when out of range. -/
def getUint8 (data : List Nat) (i : Nat) : Option Nat := data[i]?

/-- `DataView.getUint16(i, true)`: little-endian 16-bit read at offset `i`. -/
def getUint16le (data : List Nat) (i : Nat) : Option Nat := do
  let b0 ← data[i]?
  let b1 ← data[i+1]?
  pure (b0 + b1 * 256)

/-- `DataView.getUint32(i, true)`: little-endian 32-bit read at offset `i`. -/
def getUint32le (data : List Nat) (i : Nat) : Option Nat := do
  let b0 ← data[i]?
  let b1 ← data[i+1]?
  let b2 ← data[i+2]?
  let b3 ← data[i+3]?
  pure (b0 + b1 * 256 + b2 * 65536 + b3 * 16777216)

/-- `DataView.getUint32(i, false)`: big-endian 32-bit read at offset `i`
(used by the header scan to compare against the `"COLO"` magic). -/
def getUint32be (data : List Nat) (i : Nat) : Option Nat := do
  let b0 ← data[i]?
  let b1 ← data[i+1]?
  let b2 ← data[i+2]?
  let b3 ← data[i+3]?
  pure (b0 * 16777216 + b1 * 65536 + b2 * 256 + b3)

/-- Exact rational value of an IEEE-754 single-precision bit pattern
(`w < 2^32`).  Normal and subnormal patterns get their exact value; the
exponent-255 patterns (infinities/NaNs) are given values by the same
formula, a modelling choice no claim depends on. -/
def float32ToRat (w : Nat) : ℚ :=
  let sign : ℚ := if w / 2^31 % 2 == 1 then -1 else 1
  let exp : Nat := w / 2^23 % 256
  let frac : Nat := w % 2^23
  if exp == 0 then sign * (frac : ℚ) / 2^149
  else sign * ((2^23 + frac : Nat) : ℚ) * 2^exp / 2^150

/-- `DataView.getFloat32(i, true)`: little-endian 32-bit float read. -/
def getFloat32le (data : List Nat) (i : Nat) : Option ℚ :=
  (getUint32le data i).map float32ToRat

/-- The mutable scan state of the header loop of `parse`
(`hasColors`, `defaultR`, `defaultG`, `defaultB`, `alpha`). -/
structure HeaderState where
  hasColors : Bool
  defaultR : ℚ
  defaultG : ℚ
  defaultB : ℚ
  alpha : ℚ
deriving DecidableEq

/-- The header scan of `parse` (source lines 19–34): for
`index = 0 .. 70-1` test for the bytes `C O L O R =` at `index` and, on a
match, overwrite the state with the four following bytes divided by 255.
`rem` counts the remaining iterations, so the call in `parse` is
`scanHeader data 0 (80 - 10)`. -/
def scanHeader (data : List Nat) : Nat → Nat → HeaderState → Option HeaderState
  | _, 0, st => some st
  | index, rem+1, st => do
    let w ← getUint32be data index
    let b4 ← getUint8 data (index+4)
    let b5 ← getUint8 data (index+5)
    if w == 0x434F4C4F && b4 == 0x52 && b5 == 0x3D then do
      let cr ← getUint8 data (index+6)
      let cg ← getUint8 data (index+7)
      let cb ← getUint8 data (index+8)
      let ca ← getUint8 data (index+9)
      scanHeader data (index+1) rem
        ⟨true, (cr : ℚ)/255, (cg : ℚ)/255, (cb : ℚ)/255, (ca : ℚ)/255⟩
    else
      scanHeader data (index+1) rem st

/-- One iteration of the facet loop of `parse` (source lines 43–92) for facet
number `face`: read the normal at `start = 84 + face * 50`, resolve the
running `r, g, b` from the packed 16-bit color at `start + 48` when colors
are enabled, then read the three vertices at `start + 12/24/36` and emit the
nine position components, the facet normal broadcast to the three vertices,
and (when colors are enabled) the resolved color broadcast likewise. -/
def parseFacet (data : List Nat) (hc : Bool) (dR dG dB r g b : ℚ) (face : Nat) :
    Option (ℚ × ℚ × ℚ × List ℚ × List ℚ × List ℚ) := do
  let start := 84 + face * 50
  let normalX ← getFloat32le data start
  let normalY ← getFloat32le data (start+4)
  let normalZ ← getFloat32le data (start+8)
  let rgb ←
    if hc then do
      let packedColor ← getUint16le data (start+48)
      if packedColor &&& 0x8000 == 0 then
        pure (((packedColor &&& 0x1F : Nat) : ℚ) / 31,
              ((packedColor >>> 5 &&& 0x1F : Nat) : ℚ) / 31,
              ((packedColor >>> 10 &&& 0x1F : Nat) : ℚ) / 31)
      else
        pure (dR, dG, dB)
    else
      pure (r, g, b)
  let (r', g', b') := rgb
  let v1x ← getFloat32le data (start+12)
  let v1y ← getFloat32le data (start+16)
  let v1z ← getFloat32le data (start+20)
  let v2x ← getFloat32le data (start+24)
  let v2y ← getFloat32le data (start+28)
  let v2z ← getFloat32le data (start+32)
  let v3x ← getFloat32le data (start+36)
  let v3y ← getFloat32le data (start+40)
  let v3z ← getFloat32le data (start+44)
  pure (r', g', b',
        [v1x, v1y, v1z, v2x, v2y, v2z, v3x, v3y, v3z],
        [normalX, normalY, normalZ, normalX, normalY, normalZ,
         normalX, normalY, normalZ],
        if hc then [r', g', b', r', g', b', r', g', b'] else [])

/-- The facet loop of `parse`: run `parseFacet` for
`face, face+1, …, face+rem-1`, threading the running `r, g, b` across
iterations as the source's loop variables do, and concatenating the per-facet
position/normal/color components in order. -/
def runFacets (data : List Nat) (hc : Bool) (dR dG dB : ℚ) :
    Nat → Nat → ℚ → ℚ → ℚ → Option (List ℚ × List ℚ × List ℚ)
  | _, 0, _, _, _ => some ([], [], [])
  | face, rem+1, r, g, b => do
    let (r', g', b', pos, nor, col) ← parseFacet data hc dR dG dB r g b face
    let (ps, ns, cs) ← runFacets data hc dR dG dB (face+1) rem r' g' b'
    pure (pos ++ ps, nor ++ ns, col ++ cs)

/-- The `ModelData` record returned by `parse`; `colors` and `alpha` are
attached only when `hasColors` holds (the `...(hasColors && colors ? ...)`
spread in the source). -/
structure ModelData where
  hasColors : Bool
  position : List ℚ
  normals : List ℚ
  colors : Option (List ℚ)
  alpha : Option ℚ
deriving DecidableEq

/-- `parse(data)` from `src/loaders/binary-stl.ts`: read the facet count at
offset 80, scan the header for a default color, run the facet loop, and
assemble the model. -/
def parse (data : List Nat) : Option ModelData := do
  let faces ← getUint32le data 80
  let st ← scanHeader data 0 (80 - 10) ⟨false, 0, 0, 0, 0⟩
  let (vertices, normals, colors) ←
    runFacets data st.hasColors st.defaultR st.defaultG st.defaultB 0 faces 0 0 0
  pure { hasColors := st.hasColors
         position := vertices
         normals := normals
         colors := if st.hasColors then some colors else none
         alpha := if st.hasColors then some st.alpha else none }

/-! ### Total (default-valued) views of the reads, used to state results -/

/-- The byte at offset `i`, defaulting to 0 out of range. -/
def byteAt (data : List Nat) (i : Nat) : Nat := (data[i]?).getD 0

/-- Little-endian 16-bit value at offset `i` (total view). -/
def u16le (data : List Nat) (i : Nat) : Nat :=
  byteAt data i + byteAt data (i+1) * 256

/-- Little-endian 32-bit value at offset `i` (total view). -/
def u32le (data : List Nat) (i : Nat) : Nat :=
  byteAt data i + byteAt data (i+1) * 256 + byteAt data (i+2) * 65536 +
    byteAt data (i+3) * 16777216

/-- Big-endian 32-bit value at offset `i` (total view). -/
def u32be (data : List Nat) (i : Nat) : Nat :=
  byteAt data i * 16777216 + byteAt data (i+1) * 65536 + byteAt data (i+2) * 256 +
    byteAt data (i+3)

/-- Exact value of the little-endian 32-bit float at offset `i` (total view). -/
def f32at (data : List Nat) (i : Nat) : ℚ := float32ToRat (u32le data i)

/-- Whether the six bytes `C O L O R =` appear at offset `index`, exactly as
the header scan tests them: a big-endian 32-bit compare against the `"COLO"`
magic plus two single-byte compares. -/
def matchAt (data : List Nat) (index : Nat) : Bool :=
  u32be data index == 0x434F4C4F && byteAt data (index+4) == 0x52 &&
    byteAt data (index+5) == 0x3D

/-- The nine position components the facet loop writes for facet `f`. -/
def facetPositions (data : List Nat) (f : Nat) : List ℚ :=
  [f32at data (84 + f*50 + 12), f32at data (84 + f*50 + 16), f32at data (84 + f*50 + 20),
   f32at data (84 + f*50 + 24), f32at data (84 + f*50 + 28), f32at data (84 + f*50 + 32),
   f32at data (84 + f*50 + 36), f32at data (84 + f*50 + 40), f32at data (84 + f*50 + 44)]

/-- The nine normal components the facet loop writes for facet `f`: the
facet normal read at `84 + f*50`, broadcast to the three vertices. -/
def facetNormals (data : List Nat) (f : Nat) : List ℚ :=
  [f32at data (84 + f*50), f32at data (84 + f*50 + 4), f32at data (84 + f*50 + 8),
   f32at data (84 + f*50), f32at data (84 + f*50 + 4), f32at data (84 + f*50 + 8),
   f32at data (84 + f*50), f32at data (84 + f*50 + 4), f32at data (84 + f*50 + 8)]

/-- The color triple the facet loop resolves for facet `f` when colors are
enabled: the facet's own unpacked 5-bit-per-channel color when bit 15 of the
packed value is clear, the header defaults otherwise. -/
def facetRGBc (data : List Nat) (dR dG dB : ℚ) (f : Nat) : ℚ × ℚ × ℚ :=
  let packed := u16le data (84 + f*50 + 48)
  if packed &&& 0x8000 == 0 then
    (((packed &&& 0x1F : Nat) : ℚ) / 31,
     ((packed >>> 5 &&& 0x1F : Nat) : ℚ) / 31,
     ((packed >>> 10 &&& 0x1F : Nat) : ℚ) / 31)
  else
    (dR, dG, dB)

/-- The nine color components the facet loop writes for facet `f` when colors
are enabled: the resolved triple broadcast to the three vertices. -/
def facetColors (data : List Nat) (dR dG dB : ℚ) (f : Nat) : List ℚ :=
  [(facetRGBc data dR dG dB f).1, (facetRGBc data dR dG dB f).2.1,
   (facetRGBc data dR dG dB f).2.2,
   (facetRGBc data dR dG dB f).1, (facetRGBc data dR dG dB f).2.1,
   (facetRGBc data dR dG dB f).2.2,
   (facetRGBc data dR dG dB f).1, (facetRGBc data dR dG dB f).2.1,
   (facetRGBc data dR dG dB f).2.2]

/-- Concatenation of the per-facet 9-component blocks for facets
`face, face+1, …, face+rem-1`. -/
def blocks (g : Nat → List ℚ) : Nat → Nat → List ℚ
  | _, 0 => []
  | face, rem+1 => g face ++ blocks g (face+1) rem

/-! ### Concrete test buffers -/

/-- The hand-constructed 134-byte buffer of the round-trip test: blank
80-byte header, facet count 1, one facet with normal `(0,0,1)` and vertices
`(0,0,0), (1,0,0), (0,1,0)` (the bytes `0,0,128,63` are the IEEE-754
little-endian encoding of `1.0`). -/
def buf134 : List Nat :=
  List.replicate 80 0 ++ [1, 0, 0, 0] ++
  [0,0,0,0, 0,0,0,0, 0,0,128,63,
   0,0,0,0, 0,0,0,0, 0,0,0,0,
   0,0,128,63, 0,0,0,0, 0,0,0,0,
   0,0,0,0, 0,0,128,63, 0,0,0,0,
   0, 0]

/-- A 134-byte buffer whose header declares the default color `(0,0,0,0)`
via `COLOR=` at offset 0, and whose single facet carries its own packed
color `31` (bit 15 clear, 5-bit fields `R=31, G=0, B=0`). -/
def bufC4 : List Nat :=
  [0x43, 0x4F, 0x4C, 0x4F, 0x52, 0x3D, 0, 0, 0, 0] ++ List.replicate 70 0 ++
  [1, 0, 0, 0] ++ List.replicate 48 0 ++ [31, 0]

/-- A 134-byte buffer whose header declares the default color
`128,128,128,255` via `COLOR=` at offset 0, and whose single facet's packed
color `0x8000` has bit 15 set (bytes `0, 128` little-endian). -/
def bufC5 : List Nat :=
  [0x43, 0x4F, 0x4C, 0x4F, 0x52, 0x3D, 128, 128, 128, 255] ++ List.replicate 70 0 ++
  [1, 0, 0, 0] ++ List.replicate 48 0 ++ [0, 128]

/-- An 84-byte buffer with zero facets and two full `COLOR=` markers in the
header: payload `1,2,3,4` at offset 0 and payload `10,20,30,40` at offset 16. -/
def bufC6 : List Nat :=
  [0x43, 0x4F, 0x4C, 0x4F, 0x52, 0x3D, 1, 2, 3, 4] ++ List.replicate 6 0 ++
  [0x43, 0x4F, 0x4C, 0x4F, 0x52, 0x3D, 10, 20, 30, 40] ++ List.replicate 54 0 ++
  [0, 0, 0, 0]

/-- An 84-byte all-zero buffer: blank header, no color marker, zero facets. -/
def bufC7 : List Nat := List.replicate 84 0

/-- A 132-byte buffer: facet count 1 but only 48 of the 50 facet-record
bytes present (the two trailing attribute bytes are missing). -/
def bufC8x : List Nat := List.replicate 80 0 ++ [1, 0, 0, 0] ++ List.replicate 48 0

/-- A 100-byte buffer: facet count 1 but the facet record is truncated to
16 bytes. -/
def bufC8w : List Nat := List.replicate 80 0 ++ [1, 0, 0, 0] ++ List.replicate 16 0

/-! ### Characterization of the primitive reads -/

theorem byteAt_read {data : List Nat} {i : Nat} (h : i < data.length) :
    data[i]? = some (byteAt data i) := by
  rcases hq : data[i]? with _ | b
  · exact absurd hq (by simp [List.getElem?_eq_some, h])
  · simp [byteAt, hq]

theorem getUint8_eq_some_iff {data : List Nat} {i w : Nat} :
    getUint8 data i = some w ↔ i < data.length ∧ w = byteAt data i := by
  constructor
  · intro h
    obtain ⟨hl, hv⟩ := List.getElem?_eq_some.mp h
    exact ⟨hl, by simp [byteAt, getUint8] at h ⊢; simp [h]⟩
  · rintro ⟨hl, rfl⟩
    exact byteAt_read hl

theorem getUint16le_eq_some_iff {data : List Nat} {i w : Nat} :
    getUint16le data i = some w ↔ i + 1 < data.length ∧ w = u16le data i := by
  constructor
  · intro h
    simp only [getUint16le, bind, Option.bind_eq_some, Option.pure_def,
      Option.some.injEq] at h
    obtain ⟨b0, h0, b1, h1, hw⟩ := h
    have hl : i + 1 < data.length := (List.getElem?_eq_some.mp h1).1
    refine ⟨hl, ?_⟩
    simp only [u16le, byteAt, h0, h1, Option.getD_some]
    omega
  · rintro ⟨hl, rfl⟩
    simp only [getUint16le, bind, byteAt_read (show i < data.length by omega),
      byteAt_read hl]
    rfl

theorem getUint32le_eq_some_iff {data : List Nat} {i w : Nat} :
    getUint32le data i = some w ↔ i + 3 < data.length ∧ w = u32le data i := by
  constructor
  · intro h
    simp only [getUint32le, bind, Option.bind_eq_some, Option.pure_def,
      Option.some.injEq] at h
    obtain ⟨b0, h0, b1, h1, b2, h2, b3, h3, hw⟩ := h
    have hl : i + 3 < data.length := (List.getElem?_eq_some.mp h3).1
    refine ⟨hl, ?_⟩
    simp only [u32le, byteAt, h0, h1, h2, h3, Option.getD_some]
    omega
  · rintro ⟨hl, rfl⟩
    simp only [getUint32le, bind, byteAt_read (show i < data.length by omega),
      byteAt_read (show i + 1 < data.length by omega),
      byteAt_read (show i + 2 < data.length by omega),
      byteAt_read hl]
    rfl

theorem getUint32be_eq_some_iff {data : List Nat} {i w : Nat} :
    getUint32be data i = some w ↔ i + 3 < data.length ∧ w = u32be data i := by
  constructor
  · intro h
    simp only [getUint32be, bind, Option.bind_eq_some, Option.pure_def,
      Option.some.injEq] at h
    obtain ⟨b0, h0, b1, h1, b2, h2, b3, h3, hw⟩ := h
    have hl : i + 3 < data.length := (List.getElem?_eq_some.mp h3).1
    refine ⟨hl, ?_⟩
    simp only [u32be, byteAt, h0, h1, h2, h3, Option.getD_some]
    omega
  · rintro ⟨hl, rfl⟩
    simp only [getUint32be, bind, byteAt_read (show i < data.length by omega),
      byteAt_read (show i + 1 < data.length by omega),
      byteAt_read (show i + 2 < data.length by omega),
      byteAt_read hl]
    rfl

theorem getFloat32le_eq_some_iff {data : List Nat} {i : Nat} {q : ℚ} :
    getFloat32le data i = some q ↔ i + 3 < data.length ∧ q = f32at data i := by
  constructor
  · intro h
    simp only [getFloat32le, Option.map_eq_some'] at h
    obtain ⟨w, hw, hq⟩ := h
    obtain ⟨hl, hv⟩ := getUint32le_eq_some_iff.mp hw
    exact ⟨hl, by rw [← hq, hv]; rfl⟩
  · rintro ⟨hl, rfl⟩
    have hw : getUint32le data i = some (u32le data i) :=
      getUint32le_eq_some_iff.mpr ⟨hl, rfl⟩
    simp [getFloat32le, hw, f32at]

/-! ### The header scan: stepping, no-match and last-match-wins lemmas -/

theorem scanHeader_step {data : List Nat} {index rem : Nat} (st : HeaderState)
    (h : index + 9 < data.length) :
    scanHeader data index (rem+1) st =
      if matchAt data index then
        scanHeader data (index+1) rem
          ⟨true, (byteAt data (index+6) : ℚ)/255, (byteAt data (index+7) : ℚ)/255,
           (byteAt data (index+8) : ℚ)/255, (byteAt data (index+9) : ℚ)/255⟩
      else scanHeader data (index+1) rem st := by
  have h32 : getUint32be data index = some (u32be data index) :=
    getUint32be_eq_some_iff.mpr ⟨by omega, rfl⟩
  simp only [scanHeader, h32, getUint8,
    byteAt_read (show index + 4 < data.length by omega),
    byteAt_read (show index + 5 < data.length by omega),
    byteAt_read (show index + 6 < data.length by omega),
    byteAt_read (show index + 7 < data.length by omega),
    byteAt_read (show index + 8 < data.length by omega),
    byteAt_read (show index + 9 < data.length by omega),
    Option.some_bind, matchAt]
  rfl

theorem scanHeader_no_match {data : List Nat} (rem : Nat) :
    ∀ (index : Nat) (st : HeaderState),
    (∀ k, index ≤ k → k < index + rem → matchAt data k = false) →
    index + rem + 9 ≤ data.length →
    scanHeader data index rem st = some st := by
  induction rem with
  | zero => intro index st _ _; rfl
  | succ rem ih =>
    intro index st hnm hlen
    rw [scanHeader_step st (by omega), hnm index le_rfl (by omega)]
    simp only [Bool.false_eq_true, if_false]
    exact ih (index+1) st (fun k hk1 hk2 => hnm k (by omega) (by omega)) (by omega)

theorem scanHeader_last_match {data : List Nat} (rem : Nat) :
    ∀ (index : Nat) (st : HeaderState) (j : Nat),
    index ≤ j → j < index + rem → matchAt data j = true →
    (∀ k, j < k → k < index + rem → matchAt data k = false) →
    index + rem + 9 ≤ data.length →
    scanHeader data index rem st =
      some ⟨true, (byteAt data (j+6) : ℚ)/255, (byteAt data (j+7) : ℚ)/255,
            (byteAt data (j+8) : ℚ)/255, (byteAt data (j+9) : ℚ)/255⟩ := by
  induction rem with
  | zero => intro index st j h1 h2 _ _ _; exact absurd h2 (by omega)
  | succ rem ih =>
    intro index st j h1 h2 hm hnm hlen
    rw [scanHeader_step st (by omega)]
    rcases eq_or_lt_of_le h1 with rfl | hlt
    · rw [hm]
      simp only [if_true]
      exact scanHeader_no_match rem (index+1) _
        (fun k hk1 hk2 => hnm k (by omega) (by omega)) (by omega)
    · rcases hmi : matchAt data index with _ | _
      · simp only [Bool.false_eq_true, if_false]
        exact ih (index+1) st j (by omega) (by omega) hm
          (fun k hk1 hk2 => hnm k hk1 (by omega)) (by omega)
      · simp only [if_true]
        exact ih (index+1) _ j (by omega) (by omega) hm
          (fun k hk1 hk2 => hnm k hk1 (by omega)) (by omega)

/-! ### Forward read helpers -/

theorem getUint8_read {data : List Nat} {i : Nat} (h : i < data.length) :
    getUint8 data i = some (byteAt data i) :=
  getUint8_eq_some_iff.mpr ⟨h, rfl⟩

theorem getUint16le_read {data : List Nat} {i : Nat} (h : i + 1 < data.length) :
    getUint16le data i = some (u16le data i) :=
  getUint16le_eq_some_iff.mpr ⟨h, rfl⟩

theorem getUint32le_read {data : List Nat} {i : Nat} (h : i + 3 < data.length) :
    getUint32le data i = some (u32le data i) :=
  getUint32le_eq_some_iff.mpr ⟨h, rfl⟩

theorem getFloat32le_read {data : List Nat} {i : Nat} (h : i + 3 < data.length) :
    getFloat32le data i = some (f32at data i) :=
  getFloat32le_eq_some_iff.mpr ⟨h, rfl⟩

/-! ### One facet: evaluation and inversion -/

theorem parseFacet_false_eval {data : List Nat} {dR dG dB r g b : ℚ} {f : Nat}
    (h : 84 + f * 50 + 47 < data.length) :
    parseFacet data false dR dG dB r g b f =
      some (r, g, b, facetPositions data f, facetNormals data f, []) := by
  simp only [parseFacet,
    getFloat32le_read (show 84 + f * 50 + 3 < data.length by omega),
    getFloat32le_read (show 84 + f * 50 + 4 + 3 < data.length by omega),
    getFloat32le_read (show 84 + f * 50 + 8 + 3 < data.length by omega),
    getFloat32le_read (show 84 + f * 50 + 12 + 3 < data.length by omega),
    getFloat32le_read (show 84 + f * 50 + 16 + 3 < data.length by omega),
    getFloat32le_read (show 84 + f * 50 + 20 + 3 < data.length by omega),
    getFloat32le_read (show 84 + f * 50 + 24 + 3 < data.length by omega),
    getFloat32le_read (show 84 + f * 50 + 28 + 3 < data.length by omega),
    getFloat32le_read (show 84 + f * 50 + 32 + 3 < data.length by omega),
    getFloat32le_read (show 84 + f * 50 + 36 + 3 < data.length by omega),
    getFloat32le_read (show 84 + f * 50 + 40 + 3 < data.length by omega),
    getFloat32le_read (show 84 + f * 50 + 44 + 3 < data.length by omega),
    Option.some_bind]
  rfl

theorem parseFacet_true_eval {data : List Nat} {dR dG dB r g b : ℚ} {f : Nat}
    (h : 84 + f * 50 + 49 < data.length) :
    parseFacet data true dR dG dB r g b f =
      some ((facetRGBc data dR dG dB f).1, (facetRGBc data dR dG dB f).2.1,
            (facetRGBc data dR dG dB f).2.2, facetPositions data f,
            facetNormals data f, facetColors data dR dG dB f) := by
  rcases hp : (u16le data (84 + f * 50 + 48) &&& 0x8000 == 0) with _ | _ <;>
    simp only [parseFacet, bind,
      getFloat32le_read (show 84 + f * 50 + 3 < data.length by omega),
      getFloat32le_read (show 84 + f * 50 + 4 + 3 < data.length by omega),
      getFloat32le_read (show 84 + f * 50 + 8 + 3 < data.length by omega),
      getFloat32le_read (show 84 + f * 50 + 12 + 3 < data.length by omega),
      getFloat32le_read (show 84 + f * 50 + 16 + 3 < data.length by omega),
      getFloat32le_read (show 84 + f * 50 + 20 + 3 < data.length by omega),
      getFloat32le_read (show 84 + f * 50 + 24 + 3 < data.length by omega),
      getFloat32le_read (show 84 + f * 50 + 28 + 3 < data.length by omega),
      getFloat32le_read (show 84 + f * 50 + 32 + 3 < data.length by omega),
      getFloat32le_read (show 84 + f * 50 + 36 + 3 < data.length by omega),
      getFloat32le_read (show 84 + f * 50 + 40 + 3 < data.length by omega),
      getFloat32le_read (show 84 + f * 50 + 44 + 3 < data.length by omega),
      getUint16le_read (show 84 + f * 50 + 48 + 1 < data.length by omega),
      Option.some_bind, hp, Bool.false_eq_true, if_false, if_true,
      facetRGBc, facetColors, Option.pure_def] <;>
    rfl

theorem bind_eq_some' {α β : Type} {x : Option α} {k : α → Option β} {b : β}
    (h : x >>= k = some b) : ∃ a, x = some a ∧ k a = some b := by
  cases x with
  | none => exact Option.noConfusion h
  | some a => exact ⟨a, rfl, h⟩

theorem parseFacet_false_inv {data : List Nat} {dR dG dB r g b : ℚ} {f : Nat}
    {out : ℚ × ℚ × ℚ × List ℚ × List ℚ × List ℚ}
    (h : parseFacet data false dR dG dB r g b f = some out) :
    84 + f * 50 + 47 < data.length ∧
      out = (r, g, b, facetPositions data f, facetNormals data f, []) := by
  have hb : 84 + f * 50 + 47 < data.length := by
    obtain ⟨nx, hnx, h⟩ := bind_eq_some' h
    obtain ⟨ny, hny, h⟩ := bind_eq_some' h
    obtain ⟨nz, hnz, h⟩ := bind_eq_some' h
    obtain ⟨rgb, hrgb, h⟩ := bind_eq_some' h
    obtain ⟨v1x, h1, h⟩ := bind_eq_some' h
    obtain ⟨v1y, h2, h⟩ := bind_eq_some' h
    obtain ⟨v1z, h3, h⟩ := bind_eq_some' h
    obtain ⟨v2x, h4, h⟩ := bind_eq_some' h
    obtain ⟨v2y, h5, h⟩ := bind_eq_some' h
    obtain ⟨v2z, h6, h⟩ := bind_eq_some' h
    obtain ⟨v3x, h7, h⟩ := bind_eq_some' h
    obtain ⟨v3y, h8, h⟩ := bind_eq_some' h
    obtain ⟨v3z, h9, h⟩ := bind_eq_some' h
    have := (getFloat32le_eq_some_iff.mp h9).1
    omega
  rw [parseFacet_false_eval hb] at h
  exact ⟨hb, ((Option.some.injEq _ _).mp h).symm⟩

theorem parseFacet_true_inv {data : List Nat} {dR dG dB r g b : ℚ} {f : Nat}
    {out : ℚ × ℚ × ℚ × List ℚ × List ℚ × List ℚ}
    (h : parseFacet data true dR dG dB r g b f = some out) :
    84 + f * 50 + 49 < data.length ∧
      out = ((facetRGBc data dR dG dB f).1, (facetRGBc data dR dG dB f).2.1,
             (facetRGBc data dR dG dB f).2.2, facetPositions data f,
             facetNormals data f, facetColors data dR dG dB f) := by
  have hb : 84 + f * 50 + 49 < data.length := by
    obtain ⟨nx, hnx, h⟩ := bind_eq_some' h
    obtain ⟨ny, hny, h⟩ := bind_eq_some' h
    obtain ⟨nz, hnz, h⟩ := bind_eq_some' h
    obtain ⟨rgb, hrgb, h⟩ := bind_eq_some' h
    obtain ⟨p, hp16, hif⟩ := bind_eq_some' hrgb
    obtain ⟨p2, hp17, h'⟩ := bind_eq_some' hif
    have := (List.getElem?_eq_some.mp hp17).1
    omega
  rw [parseFacet_true_eval hb] at h
  exact ⟨hb, ((Option.some.injEq _ _).mp h).symm⟩

/-! ### The facet loop: block structure of the output arrays -/

theorem obind_eq_some' {α β : Type} {x : Option α} {k : α → Option β} {b : β}
    (h : Option.bind x k = some b) : ∃ a, x = some a ∧ k a = some b := by
  cases x with
  | none => exact Option.noConfusion h
  | some a => exact ⟨a, rfl, h⟩

theorem blocks_length (g : Nat → List ℚ) (hg : ∀ k, (g k).length = 9) :
    ∀ (rem face : Nat), (blocks g face rem).length = 9 * rem := by
  intro rem
  induction rem with
  | zero => intro face; rfl
  | succ rem ih =>
    intro face
    simp only [blocks, List.length_append, hg, ih (face+1)]
    omega

theorem blocks_drop_take (g : Nat → List ℚ) (hg : ∀ k, (g k).length = 9) :
    ∀ (fi rem face : Nat), fi < rem →
      ((blocks g face rem).drop (9 * fi)).take 9 = g (face + fi) := by
  intro fi
  induction fi with
  | zero =>
    intro rem face hlt
    obtain ⟨rem', rfl⟩ : ∃ rem', rem = rem' + 1 := ⟨rem - 1, by omega⟩
    simp only [blocks, Nat.mul_zero, List.drop_zero]
    rw [show (9:Nat) = (g face).length from (hg face).symm, List.take_left, Nat.add_zero]
  | succ fi ih =>
    intro rem face hlt
    obtain ⟨rem', rfl⟩ : ∃ rem', rem = rem' + 1 := ⟨rem - 1, by omega⟩
    simp only [blocks]
    rw [show 9 * (fi+1) = (g face).length + 9 * fi by rw [hg face]; ring,
      List.drop_append, ih rem' (face+1) (by omega)]
    congr 1
    omega

theorem runFacets_inv {data : List Nat} {hc : Bool} {dR dG dB : ℚ} :
    ∀ (rem face : Nat) (r g b : ℚ) (pos nor col : List ℚ),
    runFacets data hc dR dG dB face rem r g b = some (pos, nor, col) →
    pos = blocks (facetPositions data) face rem ∧
    nor = blocks (facetNormals data) face rem ∧
    col = (if hc then blocks (facetColors data dR dG dB) face rem else []) ∧
    ∀ k, face ≤ k → k < face + rem →
      84 + k * 50 + 47 < data.length ∧ (hc = true → 84 + k * 50 + 49 < data.length) := by
  intro rem
  induction rem with
  | zero =>
    intro face r g b pos nor col h
    simp only [runFacets, Option.some.injEq, Prod.mk.injEq] at h
    obtain ⟨h1, h2, h3⟩ := h
    subst h1; subst h2; subst h3
    exact ⟨rfl, rfl, by cases hc <;> rfl, fun k hk1 hk2 => absurd hk2 (by omega)⟩
  | succ rem ih =>
    intro face r g b pos nor col h
    simp only [runFacets, bind] at h
    obtain ⟨out, hout, h⟩ := obind_eq_some' h
    obtain ⟨r', g', b', pos1, nor1, col1⟩ := out
    obtain ⟨trip, htrip, h⟩ := obind_eq_some' h
    obtain ⟨ps, ns, cs⟩ := trip
    have h' := (Option.some.injEq _ _).mp h
    simp only [Prod.mk.injEq] at h'
    obtain ⟨hp, hn, hcc⟩ := h'
    obtain ⟨hB, hN, hC, hK⟩ := ih (face+1) r' g' b' ps ns cs htrip
    cases hc with
    | false =>
      obtain ⟨hb47, hout_eq⟩ := parseFacet_false_inv hout
      simp only [Prod.mk.injEq] at hout_eq
      obtain ⟨_, _, _, hp1, hn1, hc1⟩ := hout_eq
      refine ⟨?_, ?_, ?_, ?_⟩
      · rw [← hp, hp1, hB]; rfl
      · rw [← hn, hn1, hN]; rfl
      · rw [← hcc, hc1, hC]; rfl
      · intro k hk1 hk2
        rcases eq_or_lt_of_le hk1 with rfl | hlt
        · exact ⟨hb47, fun hh => absurd hh Bool.false_ne_true⟩
        · exact hK k (by omega) (by omega)
    | true =>
      obtain ⟨hb49, hout_eq⟩ := parseFacet_true_inv hout
      simp only [Prod.mk.injEq] at hout_eq
      obtain ⟨_, _, _, hp1, hn1, hc1⟩ := hout_eq
      refine ⟨?_, ?_, ?_, ?_⟩
      · rw [← hp, hp1, hB]; rfl
      · rw [← hn, hn1, hN]; rfl
      · rw [← hcc, hc1, hC]; rfl
      · intro k hk1 hk2
        rcases eq_or_lt_of_le hk1 with rfl | hlt
        · exact ⟨by omega, fun _ => hb49⟩
        · exact hK k (by omega) (by omega)

/-! ### Assembling and inverting `parse` -/

theorem parse_eq_of {data : List Nat} {n : Nat} {st : HeaderState}
    {pos nor col : List ℚ}
    (hf : getUint32le data 80 = some n)
    (hs : scanHeader data 0 (80 - 10) ⟨false, 0, 0, 0, 0⟩ = some st)
    (hr : runFacets data st.hasColors st.defaultR st.defaultG st.defaultB 0 n 0 0 0 =
      some (pos, nor, col)) :
    parse data = some ⟨st.hasColors, pos, nor,
      if st.hasColors then some col else none,
      if st.hasColors then some st.alpha else none⟩ := by
  simp only [parse, bind, hf, hs, hr, Option.some_bind]
  rfl

theorem parse_inv {data : List Nat} {m : ModelData} (h : parse data = some m) :
    ∃ (n : Nat) (st : HeaderState) (pos nor col : List ℚ),
      getUint32le data 80 = some n ∧
      scanHeader data 0 (80 - 10) ⟨false, 0, 0, 0, 0⟩ = some st ∧
      runFacets data st.hasColors st.defaultR st.defaultG st.defaultB 0 n 0 0 0 =
        some (pos, nor, col) ∧
      m = ⟨st.hasColors, pos, nor, if st.hasColors then some col else none,
           if st.hasColors then some st.alpha else none⟩ := by
  simp only [parse, bind] at h
  obtain ⟨n, hf, h⟩ := obind_eq_some' h
  obtain ⟨st, hs, h⟩ := obind_eq_some' h
  obtain ⟨trip, hr, h⟩ := obind_eq_some' h
  obtain ⟨pos, nor, col⟩ := trip
  exact ⟨n, st, pos, nor, col, hf, hs, hr, ((Option.some.injEq _ _).mp h).symm⟩

/-! ### Evaluation helpers for concrete buffers -/

theorem float32ToRat_zero : float32ToRat 0 = 0 := by
  norm_num [float32ToRat]

theorem float32ToRat_one : float32ToRat 1065353216 = 1 := by
  norm_num [float32ToRat]

theorem f32at_eq {data : List Nat} {i w : Nat} (h : u32le data i = w) :
    f32at data i = float32ToRat w := by
  rw [f32at, h]

theorem runFacets_one_false {data : List Nat} {dR dG dB r g b : ℚ} {face : Nat}
    (h : 84 + face * 50 + 47 < data.length) :
    runFacets data false dR dG dB face 1 r g b =
      some (facetPositions data face, facetNormals data face, []) := by
  simp only [runFacets, bind, parseFacet_false_eval h, Option.some_bind, List.append_nil]
  rfl

theorem runFacets_one_true {data : List Nat} {dR dG dB r g b : ℚ} {face : Nat}
    (h : 84 + face * 50 + 49 < data.length) :
    runFacets data true dR dG dB face 1 r g b =
      some (facetPositions data face, facetNormals data face,
            facetColors data dR dG dB face) := by
  simp only [runFacets, bind, parseFacet_true_eval h, Option.some_bind, List.append_nil]
  rfl

theorem facetPositions_buf134 : facetPositions buf134 0 = [0,0,0, 1,0,0, 0,1,0] := by
  simp only [facetPositions,
    f32at_eq (show u32le buf134 (84 + 0 * 50 + 12) = 0 from by decide),
    f32at_eq (show u32le buf134 (84 + 0 * 50 + 16) = 0 from by decide),
    f32at_eq (show u32le buf134 (84 + 0 * 50 + 20) = 0 from by decide),
    f32at_eq (show u32le buf134 (84 + 0 * 50 + 24) = 1065353216 from by decide),
    f32at_eq (show u32le buf134 (84 + 0 * 50 + 28) = 0 from by decide),
    f32at_eq (show u32le buf134 (84 + 0 * 50 + 32) = 0 from by decide),
    f32at_eq (show u32le buf134 (84 + 0 * 50 + 36) = 0 from by decide),
    f32at_eq (show u32le buf134 (84 + 0 * 50 + 40) = 1065353216 from by decide),
    f32at_eq (show u32le buf134 (84 + 0 * 50 + 44) = 0 from by decide),
    float32ToRat_zero, float32ToRat_one]

theorem facetNormals_buf134 : facetNormals buf134 0 = [0,0,1, 0,0,1, 0,0,1] := by
  simp only [facetNormals,
    f32at_eq (show u32le buf134 (84 + 0 * 50) = 0 from by decide),
    f32at_eq (show u32le buf134 (84 + 0 * 50 + 4) = 0 from by decide),
    f32at_eq (show u32le buf134 (84 + 0 * 50 + 8) = 1065353216 from by decide),
    float32ToRat_zero, float32ToRat_one]

theorem parse_buf134 :
    parse buf134 =
      some ⟨false, [0,0,0, 1,0,0, 0,1,0], [0,0,1, 0,0,1, 0,0,1], none, none⟩ := by
  have hnm : ∀ k < 70, matchAt buf134 k = false := by decide
  have hs : scanHeader buf134 0 (80 - 10) ⟨false, 0, 0, 0, 0⟩ =
      some ⟨false, 0, 0, 0, 0⟩ :=
    scanHeader_no_match 70 0 _ (fun k _ hk => hnm k (by omega)) (by decide)
  have hr : runFacets buf134 false 0 0 0 0 1 0 0 0 =
      some (facetPositions buf134 0, facetNormals buf134 0, []) :=
    runFacets_one_false (by decide)
  have hp := parse_eq_of (by decide : getUint32le buf134 80 = some 1) hs hr
  rw [facetPositions_buf134, facetNormals_buf134] at hp
  exact hp

theorem facetPositions_bufC4 : facetPositions bufC4 0 = [0,0,0, 0,0,0, 0,0,0] := by
  simp only [facetPositions,
    f32at_eq (show u32le bufC4 (84 + 0 * 50 + 12) = 0 from by decide),
    f32at_eq (show u32le bufC4 (84 + 0 * 50 + 16) = 0 from by decide),
    f32at_eq (show u32le bufC4 (84 + 0 * 50 + 20) = 0 from by decide),
    f32at_eq (show u32le bufC4 (84 + 0 * 50 + 24) = 0 from by decide),
    f32at_eq (show u32le bufC4 (84 + 0 * 50 + 28) = 0 from by decide),
    f32at_eq (show u32le bufC4 (84 + 0 * 50 + 32) = 0 from by decide),
    f32at_eq (show u32le bufC4 (84 + 0 * 50 + 36) = 0 from by decide),
    f32at_eq (show u32le bufC4 (84 + 0 * 50 + 40) = 0 from by decide),
    f32at_eq (show u32le bufC4 (84 + 0 * 50 + 44) = 0 from by decide),
    float32ToRat_zero]

theorem facetNormals_bufC4 : facetNormals bufC4 0 = [0,0,0, 0,0,0, 0,0,0] := by
  simp only [facetNormals,
    f32at_eq (show u32le bufC4 (84 + 0 * 50) = 0 from by decide),
    f32at_eq (show u32le bufC4 (84 + 0 * 50 + 4) = 0 from by decide),
    f32at_eq (show u32le bufC4 (84 + 0 * 50 + 8) = 0 from by decide),
    float32ToRat_zero]

theorem facetColors_bufC4 (dR dG dB : ℚ) :
    facetColors bufC4 dR dG dB 0 = [1,0,0, 1,0,0, 1,0,0] := by
  simp only [facetColors, facetRGBc,
    show u16le bufC4 (84 + 0 * 50 + 48) = 31 from by decide]
  norm_num [show (31:Nat) &&& 32768 = 0 from by decide,
    show (31:Nat) &&& 31 = 31 from by decide,
    show (31:Nat) >>> 5 &&& 31 = 0 from by decide,
    show (31:Nat) >>> 10 &&& 31 = 0 from by decide]

theorem facetPositions_bufC5 : facetPositions bufC5 0 = [0,0,0, 0,0,0, 0,0,0] := by
  simp only [facetPositions,
    f32at_eq (show u32le bufC5 (84 + 0 * 50 + 12) = 0 from by decide),
    f32at_eq (show u32le bufC5 (84 + 0 * 50 + 16) = 0 from by decide),
    f32at_eq (show u32le bufC5 (84 + 0 * 50 + 20) = 0 from by decide),
    f32at_eq (show u32le bufC5 (84 + 0 * 50 + 24) = 0 from by decide),
    f32at_eq (show u32le bufC5 (84 + 0 * 50 + 28) = 0 from by decide),
    f32at_eq (show u32le bufC5 (84 + 0 * 50 + 32) = 0 from by decide),
    f32at_eq (show u32le bufC5 (84 + 0 * 50 + 36) = 0 from by decide),
    f32at_eq (show u32le bufC5 (84 + 0 * 50 + 40) = 0 from by decide),
    f32at_eq (show u32le bufC5 (84 + 0 * 50 + 44) = 0 from by decide),
    float32ToRat_zero]

theorem facetNormals_bufC5 : facetNormals bufC5 0 = [0,0,0, 0,0,0, 0,0,0] := by
  simp only [facetNormals,
    f32at_eq (show u32le bufC5 (84 + 0 * 50) = 0 from by decide),
    f32at_eq (show u32le bufC5 (84 + 0 * 50 + 4) = 0 from by decide),
    f32at_eq (show u32le bufC5 (84 + 0 * 50 + 8) = 0 from by decide),
    float32ToRat_zero]

theorem facetColors_bufC5 (dR dG dB : ℚ) :
    facetColors bufC5 dR dG dB 0 = [dR, dG, dB, dR, dG, dB, dR, dG, dB] := by
  simp only [facetColors, facetRGBc,
    show u16le bufC5 (84 + 0 * 50 + 48) = 32768 from by decide]
  norm_num

theorem facetPositions_bufC8x : facetPositions bufC8x 0 = [0,0,0, 0,0,0, 0,0,0] := by
  simp only [facetPositions,
    f32at_eq (show u32le bufC8x (84 + 0 * 50 + 12) = 0 from by decide),
    f32at_eq (show u32le bufC8x (84 + 0 * 50 + 16) = 0 from by decide),
    f32at_eq (show u32le bufC8x (84 + 0 * 50 + 20) = 0 from by decide),
    f32at_eq (show u32le bufC8x (84 + 0 * 50 + 24) = 0 from by decide),
    f32at_eq (show u32le bufC8x (84 + 0 * 50 + 28) = 0 from by decide),
    f32at_eq (show u32le bufC8x (84 + 0 * 50 + 32) = 0 from by decide),
    f32at_eq (show u32le bufC8x (84 + 0 * 50 + 36) = 0 from by decide),
    f32at_eq (show u32le bufC8x (84 + 0 * 50 + 40) = 0 from by decide),
    f32at_eq (show u32le bufC8x (84 + 0 * 50 + 44) = 0 from by decide),
    float32ToRat_zero]

theorem facetNormals_bufC8x : facetNormals bufC8x 0 = [0,0,0, 0,0,0, 0,0,0] := by
  simp only [facetNormals,
    f32at_eq (show u32le bufC8x (84 + 0 * 50) = 0 from by decide),
    f32at_eq (show u32le bufC8x (84 + 0 * 50 + 4) = 0 from by decide),
    f32at_eq (show u32le bufC8x (84 + 0 * 50 + 8) = 0 from by decide),
    float32ToRat_zero]

theorem parse_bufC4 :
    parse bufC4 =
      some ⟨true, [0,0,0, 0,0,0, 0,0,0], [0,0,0, 0,0,0, 0,0,0],
            some [1,0,0, 1,0,0, 1,0,0], some 0⟩ := by
  have hnm : ∀ k < 70, 0 < k → matchAt bufC4 k = false := by decide
  have hs : scanHeader bufC4 0 (80 - 10) ⟨false, 0, 0, 0, 0⟩ =
      some ⟨true, (byteAt bufC4 (0+6) : ℚ)/255, (byteAt bufC4 (0+7) : ℚ)/255,
            (byteAt bufC4 (0+8) : ℚ)/255, (byteAt bufC4 (0+9) : ℚ)/255⟩ :=
    scanHeader_last_match 70 0 _ 0 (by omega) (by omega) (by decide)
      (fun k hk1 hk2 => hnm k (by omega) hk1) (by decide)
  have hr : runFacets bufC4 true ((byteAt bufC4 (0+6) : ℚ)/255)
      ((byteAt bufC4 (0+7) : ℚ)/255) ((byteAt bufC4 (0+8) : ℚ)/255) 0 1 0 0 0 =
      some (facetPositions bufC4 0, facetNormals bufC4 0,
            facetColors bufC4 ((byteAt bufC4 (0+6) : ℚ)/255)
              ((byteAt bufC4 (0+7) : ℚ)/255) ((byteAt bufC4 (0+8) : ℚ)/255) 0) :=
    runFacets_one_true (by decide)
  have hp := parse_eq_of (by decide : getUint32le bufC4 80 = some 1) hs hr
  rw [facetPositions_bufC4, facetNormals_bufC4, facetColors_bufC4] at hp
  rw [hp]
  norm_num [show byteAt bufC4 (0+9) = 0 from by decide]

theorem parse_bufC5 :
    parse bufC5 =
      some ⟨true, [0,0,0, 0,0,0, 0,0,0], [0,0,0, 0,0,0, 0,0,0],
            some [128/255, 128/255, 128/255, 128/255, 128/255, 128/255,
                  128/255, 128/255, 128/255], some 1⟩ := by
  have hnm : ∀ k < 70, 0 < k → matchAt bufC5 k = false := by decide
  have hs : scanHeader bufC5 0 (80 - 10) ⟨false, 0, 0, 0, 0⟩ =
      some ⟨true, (byteAt bufC5 (0+6) : ℚ)/255, (byteAt bufC5 (0+7) : ℚ)/255,
            (byteAt bufC5 (0+8) : ℚ)/255, (byteAt bufC5 (0+9) : ℚ)/255⟩ :=
    scanHeader_last_match 70 0 _ 0 (by omega) (by omega) (by decide)
      (fun k hk1 hk2 => hnm k (by omega) hk1) (by decide)
  have hr : runFacets bufC5 true ((byteAt bufC5 (0+6) : ℚ)/255)
      ((byteAt bufC5 (0+7) : ℚ)/255) ((byteAt bufC5 (0+8) : ℚ)/255) 0 1 0 0 0 =
      some (facetPositions bufC5 0, facetNormals bufC5 0,
            facetColors bufC5 ((byteAt bufC5 (0+6) : ℚ)/255)
              ((byteAt bufC5 (0+7) : ℚ)/255) ((byteAt bufC5 (0+8) : ℚ)/255) 0) :=
    runFacets_one_true (by decide)
  have hp := parse_eq_of (by decide : getUint32le bufC5 80 = some 1) hs hr
  rw [facetPositions_bufC5, facetNormals_bufC5, facetColors_bufC5] at hp
  rw [hp]
  norm_num [show byteAt bufC5 (0+6) = 128 from by decide,
    show byteAt bufC5 (0+7) = 128 from by decide,
    show byteAt bufC5 (0+8) = 128 from by decide,
    show byteAt bufC5 (0+9) = 255 from by decide]

theorem parse_bufC8x :
    parse bufC8x =
      some ⟨false, [0,0,0, 0,0,0, 0,0,0], [0,0,0, 0,0,0, 0,0,0], none, none⟩ := by
  have hnm : ∀ k < 70, matchAt bufC8x k = false := by decide
  have hs : scanHeader bufC8x 0 (80 - 10) ⟨false, 0, 0, 0, 0⟩ =
      some ⟨false, 0, 0, 0, 0⟩ :=
    scanHeader_no_match 70 0 _ (fun k _ hk => hnm k (by omega)) (by decide)
  have hr : runFacets bufC8x false 0 0 0 0 1 0 0 0 =
      some (facetPositions bufC8x 0, facetNormals bufC8x 0, []) :=
    runFacets_one_false (by decide)
  have hp := parse_eq_of (by decide : getUint32le bufC8x 80 = some 1) hs hr
  rw [facetPositions_bufC8x, facetNormals_bufC8x] at hp
  exact hp

/-! ### The claims -/

/-- C1: decoding the hand-constructed 134-byte single-triangle buffer
(blank header, facet count 1, normal `(0,0,1)`, vertices
`(0,0,0),(1,0,0),(0,1,0)`) yields `position = [0,0,0, 1,0,0, 0,1,0]` and
`normals = [0,0,1, 0,0,1, 0,0,1]`. -/
theorem stl_c1_roundtrip_single_triangle :
    parse buf134 =
      some ⟨false, [0,0,0, 1,0,0, 0,1,0], [0,0,1, 0,0,1, 0,0,1], none, none⟩ :=
  parse_buf134

/-- C2: whenever `parse` completes on a buffer whose facet count at offset 80
is `n`, the model satisfies `position.length = normals.length = n * 9`, the
colors array (when present) has that same length, and all these lengths are
divisible by 9. -/
theorem stl_c2_lengths {data : List Nat} {m : ModelData} {n : Nat}
    (hm : parse data = some m) (hn : getUint32le data 80 = some n) :
    m.position.length = n * 9 ∧ m.normals.length = n * 9 ∧
    (∀ c, m.colors = some c → c.length = n * 9) ∧
    9 ∣ m.position.length ∧ 9 ∣ m.normals.length ∧
    (∀ c, m.colors = some c → 9 ∣ c.length) := by
  obtain ⟨n', st, pos, nor, col, hf, hs, hr, hmod⟩ := parse_inv hm
  rw [hf] at hn
  have hee : n' = n := (Option.some.injEq _ _).mp hn
  rw [hee] at hr
  obtain ⟨hB, hN, hC, _⟩ := runFacets_inv n 0 0 0 0 pos nor col hr
  subst hmod
  dsimp only
  have hpos : pos.length = n * 9 := by
    rw [hB, blocks_length (facetPositions data) (fun k => rfl) n 0]; omega
  have hnor : nor.length = n * 9 := by
    rw [hN, blocks_length (facetNormals data) (fun k => rfl) n 0]; omega
  have hcols : ∀ c, (if st.hasColors then some col else none) = some c →
      c.length = n * 9 := by
    intro c hc
    rcases hhc : st.hasColors with _ | _
    · rw [hhc] at hc
      simp only [Bool.false_eq_true, if_false] at hc
      exact Option.noConfusion hc
    · rw [hhc] at hc hC
      simp only [if_true, eq_self_iff_true] at hc hC
      obtain rfl : col = c := (Option.some.injEq _ _).mp hc
      rw [hC, blocks_length (facetColors data st.defaultR st.defaultG st.defaultB)
        (fun k => rfl) n 0]
      omega
  exact ⟨hpos, hnor, hcols, ⟨n, by omega⟩, ⟨n, by omega⟩,
    fun c hc => ⟨n, by rw [hcols c hc]; omega⟩⟩

/-- C2 witness: the invariant instantiated on the single-triangle buffer. -/
theorem stl_c2_lengths_witness :
    parse buf134 =
      some ⟨false, [0,0,0, 1,0,0, 0,1,0], [0,0,1, 0,0,1, 0,0,1], none, none⟩ ∧
    getUint32le buf134 80 = some 1 ∧
    ((⟨false, [0,0,0, 1,0,0, 0,1,0], [0,0,1, 0,0,1, 0,0,1], none, none⟩ :
        ModelData).position.length = 1 * 9 ∧
     (⟨false, [0,0,0, 1,0,0, 0,1,0], [0,0,1, 0,0,1, 0,0,1], none, none⟩ :
        ModelData).normals.length = 1 * 9 ∧
     (∀ c, (⟨false, [0,0,0, 1,0,0, 0,1,0], [0,0,1, 0,0,1, 0,0,1], none, none⟩ :
        ModelData).colors = some c → c.length = 1 * 9) ∧
     9 ∣ (⟨false, [0,0,0, 1,0,0, 0,1,0], [0,0,1, 0,0,1, 0,0,1], none, none⟩ :
        ModelData).position.length ∧
     9 ∣ (⟨false, [0,0,0, 1,0,0, 0,1,0], [0,0,1, 0,0,1, 0,0,1], none, none⟩ :
        ModelData).normals.length ∧
     (∀ c, (⟨false, [0,0,0, 1,0,0, 0,1,0], [0,0,1, 0,0,1, 0,0,1], none, none⟩ :
        ModelData).colors = some c → 9 ∣ c.length)) :=
  ⟨parse_buf134, by decide, @stl_c2_lengths _ _ 1 parse_buf134 (by decide)⟩

/-- C3: for every facet `f` below the facet count, the nine normal components
written for that facet are the facet normal read at byte offset `84 + f*50`
(components at `+0`, `+4`, `+8`), broadcast identically to the three
vertices. -/
theorem stl_c3_normal_broadcast {data : List Nat} {m : ModelData} {n f : Nat}
    (hm : parse data = some m) (hn : getUint32le data 80 = some n) (hf : f < n) :
    ∃ nx ny nz : ℚ,
      getFloat32le data (84 + f * 50) = some nx ∧
      getFloat32le data (84 + f * 50 + 4) = some ny ∧
      getFloat32le data (84 + f * 50 + 8) = some nz ∧
      (m.normals.drop (9 * f)).take 9 = [nx, ny, nz, nx, ny, nz, nx, ny, nz] := by
  obtain ⟨n', st, pos, nor, col, hf32, hs, hr, hmod⟩ := parse_inv hm
  rw [hf32] at hn
  have hee : n' = n := (Option.some.injEq _ _).mp hn
  rw [hee] at hr
  obtain ⟨_, hN, _, hK⟩ := runFacets_inv n 0 0 0 0 pos nor col hr
  have hb := (hK f (by omega) (by omega)).1
  refine ⟨f32at data (84 + f * 50), f32at data (84 + f * 50 + 4),
    f32at data (84 + f * 50 + 8), getFloat32le_read (by omega),
    getFloat32le_read (by omega), getFloat32le_read (by omega), ?_⟩
  subst hmod
  dsimp only
  rw [hN, blocks_drop_take (facetNormals data) (fun k => rfl) f n 0 hf,
    Nat.zero_add]
  rfl

/-- C3 witness: the broadcast property instantiated at facet 0 of the
single-triangle buffer. -/
theorem stl_c3_normal_broadcast_witness :
    parse buf134 =
      some ⟨false, [0,0,0, 1,0,0, 0,1,0], [0,0,1, 0,0,1, 0,0,1], none, none⟩ ∧
    getUint32le buf134 80 = some 1 ∧ 0 < 1 ∧
    (∃ nx ny nz : ℚ,
      getFloat32le buf134 (84 + 0 * 50) = some nx ∧
      getFloat32le buf134 (84 + 0 * 50 + 4) = some ny ∧
      getFloat32le buf134 (84 + 0 * 50 + 8) = some nz ∧
      (((⟨false, [0,0,0, 1,0,0, 0,1,0], [0,0,1, 0,0,1, 0,0,1], none, none⟩ :
          ModelData).normals.drop (9 * 0)).take 9 =
        [nx, ny, nz, nx, ny, nz, nx, ny, nz])) :=
  ⟨parse_buf134, by decide, by decide,
   @stl_c3_normal_broadcast _ _ 1 0 parse_buf134 (by decide) (by decide)⟩

/-- C4: when colors are enabled and facet `f`'s packed 16-bit color (read
little-endian at record offset `+48`) has bit 15 clear, the facet's nine
color components are the unpacked 5-bit channels divided by 31, broadcast to
the three vertices. -/
theorem stl_c4_facet_color_override {data : List Nat} {m : ModelData} {n f p : Nat}
    (hm : parse data = some m) (hn : getUint32le data 80 = some n) (hf : f < n)
    (hcol : m.hasColors = true)
    (hp : getUint16le data (84 + f * 50 + 48) = some p)
    (hbit : p &&& 0x8000 = 0) :
    ∃ c, m.colors = some c ∧
      (c.drop (9 * f)).take 9 =
        [((p &&& 0x1F : Nat) : ℚ) / 31, ((p >>> 5 &&& 0x1F : Nat) : ℚ) / 31,
         ((p >>> 10 &&& 0x1F : Nat) : ℚ) / 31,
         ((p &&& 0x1F : Nat) : ℚ) / 31, ((p >>> 5 &&& 0x1F : Nat) : ℚ) / 31,
         ((p >>> 10 &&& 0x1F : Nat) : ℚ) / 31,
         ((p &&& 0x1F : Nat) : ℚ) / 31, ((p >>> 5 &&& 0x1F : Nat) : ℚ) / 31,
         ((p >>> 10 &&& 0x1F : Nat) : ℚ) / 31] := by
  obtain ⟨n', st, pos, nor, col, hf32, hs, hr, hmod⟩ := parse_inv hm
  rw [hf32] at hn
  have hee : n' = n := (Option.some.injEq _ _).mp hn
  rw [hee] at hr
  obtain ⟨_, _, hC, hK⟩ := runFacets_inv n 0 0 0 0 pos nor col hr
  subst hmod
  dsimp only at hcol ⊢
  simp only [hcol, if_true] at hC
  refine ⟨col, by simp [hcol], ?_⟩
  rw [hC, blocks_drop_take (facetColors data st.defaultR st.defaultG st.defaultB)
    (fun k => rfl) f n 0 hf, Nat.zero_add]
  obtain ⟨hblen, hpv⟩ := getUint16le_eq_some_iff.mp hp
  have hcond : (p &&& 0x8000 == 0) = true := by simp [hbit]
  simp only [facetColors, facetRGBc, ← hpv, hcond]
  simp

/-- C4 witness: a facet with packed color 31 (bit 15 clear, `R=31,G=0,B=0`)
decodes to the color triple `(1, 0, 0)` for all three vertices. -/
theorem stl_c4_facet_color_override_witness :
    parse bufC4 =
      some ⟨true, [0,0,0, 0,0,0, 0,0,0], [0,0,0, 0,0,0, 0,0,0],
            some [1,0,0, 1,0,0, 1,0,0], some 0⟩ ∧
    getUint32le bufC4 80 = some 1 ∧ 0 < 1 ∧
    getUint16le bufC4 (84 + 0 * 50 + 48) = some 31 ∧ 31 &&& 0x8000 = 0 ∧
    (∃ c, (⟨true, [0,0,0, 0,0,0, 0,0,0], [0,0,0, 0,0,0, 0,0,0],
            some [1,0,0, 1,0,0, 1,0,0], some 0⟩ : ModelData).colors = some c ∧
      (c.drop (9 * 0)).take 9 =
        [((31 &&& 0x1F : Nat) : ℚ) / 31, ((31 >>> 5 &&& 0x1F : Nat) : ℚ) / 31,
         ((31 >>> 10 &&& 0x1F : Nat) : ℚ) / 31,
         ((31 &&& 0x1F : Nat) : ℚ) / 31, ((31 >>> 5 &&& 0x1F : Nat) : ℚ) / 31,
         ((31 >>> 10 &&& 0x1F : Nat) : ℚ) / 31,
         ((31 &&& 0x1F : Nat) : ℚ) / 31, ((31 >>> 5 &&& 0x1F : Nat) : ℚ) / 31,
         ((31 >>> 10 &&& 0x1F : Nat) : ℚ) / 31]) :=
  ⟨parse_bufC4, by decide, by decide, by decide, by decide,
   @stl_c4_facet_color_override _ _ 1 0 31 parse_bufC4 (by decide) (by decide) rfl
     (by decide) (by decide)⟩

/-- C5: a buffer whose header carries `COLOR=` with payload
`128,128,128,255` at offset 0, and whose facet's packed color has bit 15
set, decodes with `hasColors = true`, every vertex color equal to
`128/255`, and `alpha = 1`. -/
theorem stl_c5_header_default_color :
    parse bufC5 =
      some ⟨true, [0,0,0, 0,0,0, 0,0,0], [0,0,0, 0,0,0, 0,0,0],
            some [128/255, 128/255, 128/255, 128/255, 128/255, 128/255,
                  128/255, 128/255, 128/255], some 1⟩ :=
  parse_bufC5

/-- C6: the header scan does not stop at the first `COLOR=` match — when `j`
is the last (rightmost) matching offset in `[0, 70)`, the scan's final state
takes its default red, green, blue and alpha from offset `j`, later matches
having overwritten earlier ones, and the decoded model's `hasColors` and
`alpha` come from that offset. -/
theorem stl_c6_last_match_wins {data : List Nat} {j : Nat}
    (hlen : 84 ≤ data.length) (hj : j < 70) (hm : matchAt data j = true)
    (hlast : ∀ k, j < k → k < 70 → matchAt data k = false) :
    scanHeader data 0 (80 - 10) ⟨false, 0, 0, 0, 0⟩ =
      some ⟨true, (byteAt data (j+6) : ℚ)/255, (byteAt data (j+7) : ℚ)/255,
            (byteAt data (j+8) : ℚ)/255, (byteAt data (j+9) : ℚ)/255⟩ ∧
    (∀ m : ModelData, parse data = some m →
      m.hasColors = true ∧ m.alpha = some ((byteAt data (j+9) : ℚ)/255)) := by
  have hscan := scanHeader_last_match 70 0 ⟨false, 0, 0, 0, 0⟩ j (by omega) (by omega)
    hm (fun k hk1 hk2 => hlast k hk1 (by omega)) (by omega)
  refine ⟨hscan, ?_⟩
  intro m hm'
  obtain ⟨n, st, pos, nor, col, hf, hs, hr, hmod⟩ := parse_inv hm'
  rw [hs] at hscan
  obtain rfl : st = _ := (Option.some.injEq _ _).mp hscan
  subst hmod
  exact ⟨rfl, rfl⟩

/-- C6 witness: on a header with two full markers (offsets 0 and 16) the
defaults come from offset 16, the rightmost one. -/
theorem stl_c6_last_match_wins_witness :
    matchAt bufC6 0 = true ∧ matchAt bufC6 16 = true ∧
    84 ≤ bufC6.length ∧ 16 < 70 ∧
    (∀ k < 70, 16 < k → matchAt bufC6 k = false) ∧
    (scanHeader bufC6 0 (80 - 10) ⟨false, 0, 0, 0, 0⟩ =
      some ⟨true, (byteAt bufC6 (16+6) : ℚ)/255, (byteAt bufC6 (16+7) : ℚ)/255,
            (byteAt bufC6 (16+8) : ℚ)/255, (byteAt bufC6 (16+9) : ℚ)/255⟩ ∧
     (∀ m : ModelData, parse bufC6 = some m →
        m.hasColors = true ∧ m.alpha = some ((byteAt bufC6 (16+9) : ℚ)/255))) :=
  ⟨by decide, by decide, by decide, by decide, by decide,
   stl_c6_last_match_wins (by decide) (by decide) (by decide)
     (fun k hk1 hk2 =>
       (by decide : ∀ k' < 70, 16 < k' → matchAt bufC6 k' = false) k hk2 hk1)⟩

/-- C7: a buffer of at least 84 bytes with facet count 0 and no full
`COLOR=` marker in the first 70 header bytes decodes to empty `position`
and `normals`, `hasColors = false`, and no `colors` or `alpha` fields. -/
theorem stl_c7_zero_facets_no_marker {data : List Nat}
    (hlen : 84 ≤ data.length) (hn : getUint32le data 80 = some 0)
    (hnm : ∀ k < 70, matchAt data k = false) :
    parse data = some ⟨false, [], [], none, none⟩ := by
  have hs := scanHeader_no_match 70 0 ⟨false, 0, 0, 0, 0⟩
    (fun k _ hk2 => hnm k (by omega)) (by omega)
  exact parse_eq_of hn hs rfl

/-- C7 witness: the all-zero 84-byte buffer. -/
theorem stl_c7_zero_facets_no_marker_witness :
    84 ≤ bufC7.length ∧ getUint32le bufC7 80 = some 0 ∧
    (∀ k < 70, matchAt bufC7 k = false) ∧
    parse bufC7 = some ⟨false, [], [], none, none⟩ :=
  ⟨by decide, by decide, by decide,
   stl_c7_zero_facets_no_marker (by decide) (by decide) (by decide)⟩

/-- C8 counterexample: the claim "every buffer shorter than
`84 + facetCount * 50` makes some read fail" is false — a colorless buffer
of 132 bytes (facet count 1, so two bytes short of `84 + 50 = 134`) parses
successfully, because the two trailing attribute bytes of the facet record
are read only when colors are enabled. -/
theorem stl_c8_oob_counterexample :
    getUint32le bufC8x 80 = some 1 ∧ bufC8x.length < 84 + 1 * 50 ∧
    parse bufC8x =
      some ⟨false, [0,0,0, 0,0,0, 0,0,0], [0,0,0, 0,0,0, 0,0,0], none, none⟩ :=
  ⟨by decide, by decide, parse_bufC8x⟩

/-- C8 amended: for every buffer whose facet count `n` at offset 80 is
positive and whose length is less than `84 + n * 50 - 2`, some read inside
the facet loop is out of range and the decode fails (returns `none`) rather
than producing a truncated or zero-filled model. -/
theorem stl_c8_oob_amended {data : List Nat} {n : Nat}
    (hn : getUint32le data 80 = some n) (hpos : 0 < n)
    (hshort : data.length + 2 < 84 + n * 50) :
    parse data = none := by
  rcases hp : parse data with _ | m
  · rfl
  · exfalso
    obtain ⟨n', st, pos, nor, col, hf, hs, hr, _⟩ := parse_inv hp
    rw [hf] at hn
    have hee : n' = n := (Option.some.injEq _ _).mp hn
    rw [hee] at hr
    obtain ⟨_, _, _, hK⟩ := runFacets_inv n 0 0 0 0 pos nor col hr
    have := (hK (n - 1) (by omega) (by omega)).1
    omega

/-- C8 witness: a 100-byte buffer with facet count 1 fails to decode. -/
theorem stl_c8_oob_witness :
    getUint32le bufC8w 80 = some 1 ∧ 0 < 1 ∧
    bufC8w.length + 2 < 84 + 1 * 50 ∧ parse bufC8w = none :=
  ⟨by decide, by decide, by decide,
   @stl_c8_oob_amended _ 1 (by decide) (by decide) (by decide)⟩

/-- C9: `parse` is a pure function of the input bytes — two calls on
identical buffer contents return structurally identical models; in this
embedding `parse` is a function of the byte list alone, so determinism is
congruence. -/
theorem stl_c9_deterministic (d1 d2 : List Nat) (h : d1 = d2) :
    parse d1 = parse d2 := by
  rw [h]

/-- C9 witness: determinism instantiated on the single-triangle buffer. -/
theorem stl_c9_deterministic_witness :
    buf134 = buf134 ∧ parse buf134 = parse buf134 :=
  ⟨rfl, stl_c9_deterministic buf134 buf134 rfl⟩

/-- C10: a buffer of at least 84 bytes with facet count 0 whose header does
contain a full `COLOR=` marker (last match at offset `j`) decodes with
`hasColors = true`, a present empty `colors` array, and `alpha` equal to the
marker's alpha byte divided by 255 — the marker alone determines `hasColors`
and the presence of `colors`/`alpha`. -/
theorem stl_c10_zero_facets_with_marker {data : List Nat} {j : Nat}
    (hlen : 84 ≤ data.length) (hn : getUint32le data 80 = some 0)
    (hj : j < 70) (hm : matchAt data j = true)
    (hlast : ∀ k, j < k → k < 70 → matchAt data k = false) :
    parse data = some ⟨true, [], [], some [], some ((byteAt data (j+9) : ℚ)/255)⟩ := by
  have hs := scanHeader_last_match 70 0 ⟨false, 0, 0, 0, 0⟩ j (by omega) (by omega)
    hm (fun k hk1 hk2 => hlast k hk1 (by omega)) (by omega)
  exact parse_eq_of hn hs rfl

/-- C10 witness: the two-marker zero-facet buffer decodes with
`hasColors = true`, empty colors, and `alpha = 40/255` from the last
marker. -/
theorem stl_c10_zero_facets_with_marker_witness :
    84 ≤ bufC6.length ∧ getUint32le bufC6 80 = some 0 ∧ 16 < 70 ∧
    matchAt bufC6 16 = true ∧ (∀ k < 70, 16 < k → matchAt bufC6 k = false) ∧
    parse bufC6 =
      some ⟨true, [], [], some [], some ((byteAt bufC6 (16+9) : ℚ)/255)⟩ :=
  ⟨by decide, by decide, by decide, by decide, by decide,
   stl_c10_zero_facets_with_marker (by decide) (by decide) (by decide) (by decide)
     (fun k hk1 hk2 =>
       (by decide : ∀ k' < 70, 16 < k' → matchAt bufC6 k' = false) k hk2 hk1)⟩
